import Mathlib

/-!
Verification of the asynchronous task orchestration layer of the
machine-learning-backend repository, against its specification.

The embedding models the Task Record Store as a list of records and the
worker/endpoint operations as pure functions on that list:

* `Tarefa`, `atualizar_status_tarefa`, `treinar_modelo`, `realizar_previsao`,
  `limpar_tarefas_antigas` embed `src/app10/worker.py` and
  `src/app10/database/models.py`;
* `prever_async`, `verificar_status_tarefa` embed the async branch of the
  `/prever` endpoint and the `/tarefa/{task_id}` endpoint of
  `src/app10/api/endpoints.py`;
* `TarefaAssincrona` and its `duracao` property embed
  `src/app09/database/models.py`;
* `status_tarefa`, `treinar9_async` embed `src/app9/api/endpoints.py`;
* `RegistroTarefa9`, `atualizar_status_tarefa9` embed `src/app9/worker.py`.

Machine times (SQL DateTime values) are modeled as integers; JSON dictionaries
as association lists of strings.  Python truthiness of `Optional` arguments
(`if resultado:` / `if erro:`) is modeled explicitly by `dictTruthy` and
`strTruthy`.
-/

namespace MLTask

/-- JSON-style dictionary payload: an association list of opaque string
key/value pairs. -/
abbrev Dict := List (String × String)

/-- Python truthiness of an `Optional[Dict]` argument (`if resultado:` in
`src/app10/worker.py`): `None` and the empty dict are falsy. -/
def dictTruthy : Option Dict → Bool
  | none => false
  | some [] => false
  | some (_ :: _) => true

/-- Python truthiness of an `Optional[str]` argument (`if erro:` in
`src/app10/worker.py`): `None` and the empty string are falsy. -/
def strTruthy : Option String → Bool
  | none => false
  | some s => !(s == "")

/-- The `Tarefa` ORM model of `src/app10/database/models.py` (the task record
of app10).  Note the schema has `timestamp_inicio` (defaulted at row
creation), `timestamp_atualizacao` and a stored `duracao`, and no separate
`finished_at` column. -/
structure Tarefa where
  task_id : String
  tipo : String
  status : String
  dados_entrada : Option Dict
  resultado : Option Dict
  erro : Option String
  timestamp_inicio : Option Int
  timestamp_atualizacao : Int
  duracao : Option Int
  deriving Repr, DecidableEq

/-- `db.query(Tarefa).filter(Tarefa.task_id == task_id).first()`. -/
def findTarefa (db : List Tarefa) (task_id : String) : Option Tarefa :=
  db.find? (fun t => t.task_id == task_id)

/-- Replace the first element satisfying `p` by its image under `f` (the
effect of mutating the ORM object returned by `.first()` and committing). -/
def updateFirst {α : Type} (p : α → Bool) (f : α → α) : List α → List α
  | [] => []
  | a :: l => if p a then f a :: l else a :: updateFirst p f l

/-- The field updates applied by `atualizar_status_tarefa` in
`src/app10/worker.py` (lines 106-124) to the fetched record: the status is
assigned unconditionally; `resultado` / `erro` are assigned only when the
arguments are truthy; `duracao` is recomputed from `timestamp_inicio` when the
new status is terminal; `timestamp_atualizacao` is refreshed. -/
def aplicarAtualizacao (t : Tarefa) (now : Int) (status : String)
    (resultado : Option Dict) (erro : Option String) : Tarefa :=
  { t with
    status := status
    resultado := if dictTruthy resultado then resultado else t.resultado
    erro := if strTruthy erro then erro else t.erro
    duracao :=
      if status == "concluida" || status == "falha" then
        match t.timestamp_inicio with
        | some inicio => some (now - inicio)
        | none => t.duracao
      else t.duracao
    timestamp_atualizacao := now }

/-- `atualizar_status_tarefa` of `src/app10/worker.py` (lines 82-142): fetch
the record by `task_id`; if absent, return `False` leaving the store as it
was; otherwise apply the field updates, commit, and return `True`. -/
def atualizar_status_tarefa (db : List Tarefa) (now : Int)
    (task_id status : String) (resultado : Option Dict) (erro : Option String) :
    Bool × List Tarefa :=
  match findTarefa db task_id with
  | none => (false, db)
  | some _ =>
      (true, updateFirst (fun t => t.task_id == task_id)
        (fun t => aplicarAtualizacao t now status resultado erro) db)

/-- The `treinar_modelo` Celery task of `src/app10/worker.py` (lines 145-194).
The opaque executor call `modelo.treinar(dados, algoritmo)` is the `outcome`
argument (`Except.error e` embeds a raised exception with `str(e) = e`).
`t1` is the wall clock at the IN_PROGRESS write, `t2` at the terminal write.
On success the stored result is the metrics dict extended with the
`algoritmo`, `tempo_treinamento` and `timestamp` entries; on failure the
exception is recorded via the status updater and then re-raised for Celery
(the second component of the returned pair). -/
def treinar_modelo (db : List Tarefa) (t1 t2 : Int) (task_id : String)
    (outcome : Except String Dict) (algoritmo tempo_treinamento timestamp : String) :
    List Tarefa × Except String Dict :=
  let db1 := (atualizar_status_tarefa db t1 task_id "em_progresso" none none).2
  match outcome with
  | Except.ok metricas =>
      let resultado : Dict := metricas ++
        [("algoritmo", algoritmo), ("tempo_treinamento", tempo_treinamento),
         ("timestamp", timestamp)]
      ((atualizar_status_tarefa db1 t2 task_id "concluida" (some resultado) none).2,
       Except.ok resultado)
  | Except.error e =>
      ((atualizar_status_tarefa db1 t2 task_id "falha" none (some e)).2,
       Except.error e)

/-- The `realizar_previsao` Celery task of `src/app10/worker.py`
(lines 197-246); the opaque executor call `modelo.prever(dados)` returns the
pair (predicted price, confidence) or raises. -/
def realizar_previsao (db : List Tarefa) (t1 t2 : Int) (task_id : String)
    (outcome : Except String (String × String))
    (modelo_usado tempo_predicao timestamp : String) :
    List Tarefa × Except String Dict :=
  let db1 := (atualizar_status_tarefa db t1 task_id "em_progresso" none none).2
  match outcome with
  | Except.ok pc =>
      let resultado : Dict :=
        [("preco_previsto", pc.1), ("confianca", pc.2),
         ("modelo_usado", modelo_usado), ("tempo_predicao", tempo_predicao),
         ("timestamp", timestamp)]
      ((atualizar_status_tarefa db1 t2 task_id "concluida" (some resultado) none).2,
       Except.ok resultado)
  | Except.error e =>
      ((atualizar_status_tarefa db1 t2 task_id "falha" none (some e)).2,
       Except.error e)

/-- The attribute lookup `datetime.timedelta` performed by
`limpar_tarefas_antigas` in `src/app10/worker.py` (line 266).  The module
header (line 7) reads `from datetime import datetime`, so the name `datetime`
is bound to the `datetime.datetime` class, which has no `timedelta`
attribute (`timedelta` lives in the `datetime` module): the lookup raises
`AttributeError` before any subtraction happens.  The result type is the
delta (in time units) the call would produce if it existed. -/
def datetime_class_timedelta (dias : Int) : Except String Int :=
  Except.error
    "AttributeError: type object datetime.datetime has no attribute timedelta"

/-- The `limpar_tarefas_antigas` Celery task of `src/app10/worker.py`
(lines 249-294).  It first computes `data_limite = datetime.utcnow() -
datetime.timedelta(days=dias)`; only then would it delete the records with
`timestamp_atualizacao < data_limite` and commit.  If any exception is
raised, the transaction is rolled back (the store is left as it was) and the
exception is re-raised.  Returns the resulting store together with either the
number of removed records or the raised exception. -/
def limpar_tarefas_antigas (db : List Tarefa) (now : Int) (dias : Int) :
    List Tarefa × Except String Nat :=
  match datetime_class_timedelta dias with
  | Except.error e => (db, Except.error e)
  | Except.ok delta =>
      let data_limite := now - delta
      let kept := db.filter (fun t => !(t.timestamp_atualizacao < data_limite))
      (kept, Except.ok (db.length - kept.length))

/-- The `StatusTarefa` response schema of `src/app10/api/schemas.py`
(lines 99-109), as populated by the endpoints of
`src/app10/api/endpoints.py`. -/
structure StatusTarefaResp where
  task_id : String
  status : String
  resultado : Option Dict
  erro : Option String
  timestamp_inicio : Option Int
  timestamp_atualizacao : Int
  deriving Repr, DecidableEq

/-- The async branch of the `/prever` endpoint of
`src/app10/api/endpoints.py` (lines 100-124): generate a fresh uuid
(`task_id`, an argument here), insert the PENDING record — whose
`timestamp_inicio` is set to `now` already at creation — commit, then enqueue
`realizar_previsao` with the same `task_id`, and return the status response.
The second component is the enqueued message (task id and payload). -/
def prever_async (db : List Tarefa) (now : Int) (task_id : String)
    (dados : Dict) : List Tarefa × (String × Dict) × StatusTarefaResp :=
  let tarefa : Tarefa :=
    { task_id := task_id, tipo := "predicao", status := "pendente",
      dados_entrada := some dados, resultado := none, erro := none,
      timestamp_inicio := some now, timestamp_atualizacao := now,
      duracao := none }
  (db ++ [tarefa], (task_id, dados),
   { task_id := task_id, status := "pendente", resultado := none,
     erro := none, timestamp_inicio := some now,
     timestamp_atualizacao := now })

/-- The `/tarefa/{task_id}` status endpoint `verificar_status_tarefa` of
`src/app10/api/endpoints.py` (lines 248-279): a pure read that raises HTTP
404 when no record matches.  The store is returned unchanged alongside the
response to make the absence of side effects explicit. -/
def verificar_status_tarefa (db : List Tarefa) (task_id : String) :
    List Tarefa × Except Nat StatusTarefaResp :=
  match findTarefa db task_id with
  | none => (db, Except.error 404)
  | some t =>
      (db, Except.ok
        { task_id := t.task_id, status := t.status, resultado := t.resultado,
          erro := t.erro, timestamp_inicio := t.timestamp_inicio,
          timestamp_atualizacao := t.timestamp_atualizacao })

/-- The `TarefaAssincrona` ORM model of `src/app09/database/models.py`
(lines 128-168): the task record with creation / start / finish timestamps
(the latter two nullable), parameters, result and error. -/
structure TarefaAssincrona where
  task_id : String
  tipo : String
  status : String
  timestamp_criacao : Int
  timestamp_inicio : Option Int
  timestamp_fim : Option Int
  descricao : Option String
  parametros : Option Dict
  resultado : Option Dict
  erro : Option String
  deriving Repr, DecidableEq

/-- The derived `duracao` property of `TarefaAssincrona`
(`src/app09/database/models.py` lines 156-161): the difference of the finish
and start timestamps when both are set, `None` otherwise. -/
def TarefaAssincrona.duracao (t : TarefaAssincrona) : Option Int :=
  match t.timestamp_inicio, t.timestamp_fim with
  | some inicio, some fim => some (fim - inicio)
  | _, _ => none

/-- `db.query(TarefaAssincrona).filter(TarefaAssincrona.task_id == task_id)
.first()` as used by `src/app9/api/endpoints.py`. -/
def findT9 (db : List TarefaAssincrona) (task_id : String) :
    Option TarefaAssincrona :=
  db.find? (fun t => t.task_id == task_id)

/-- The observable outcome of `celery_app.AsyncResult(task_id)` inside
`status_tarefa` of `src/app9/api/endpoints.py`: the state string reported by
the result backend, the deserialized result (consulted when the state is
SUCCESS) and the stringified result (consulted in the fallback branch). -/
structure AsyncResultView where
  state : String
  result : Option Dict
  resultStr : String
  deriving Repr, DecidableEq

/-- The `StatusTarefaResponse` schema of `src/app9/api/schemas.py`
(lines 158-168). -/
structure StatusTarefaResponse where
  task_id : String
  status : String
  tipo : String
  timestamp_criacao : Int
  timestamp_inicio : Option Int
  timestamp_fim : Option Int
  resultado : Option Dict
  erro : Option String
  deriving Repr, DecidableEq

/-- Membership in `StatusTarefaEnum` of `src/app9/api/schemas.py`
(lines 24-30): PENDENTE, EM_PROGRESSO, CONCLUIDO, FALHA, CANCELADO. -/
def statusTarefaEnumValido (s : String) : Bool :=
  s == "PENDENTE" || s == "EM_PROGRESSO" || s == "CONCLUIDO" ||
    s == "FALHA" || s == "CANCELADO"

/-- Membership in `TipoTarefaEnum` of `src/app9/api/schemas.py`
(lines 32-37): TREINAMENTO, PREVISAO, PREVISAO_LOTE, OUTRO. -/
def tipoTarefaEnumValido (s : String) : Bool :=
  s == "TREINAMENTO" || s == "PREVISAO" || s == "PREVISAO_LOTE" ||
    s == "OUTRO"

/-- Constructing a `StatusTarefaResponse` (`src/app9/api/schemas.py`
lines 158-168): pydantic validates the `status` and `tipo` fields against
`StatusTarefaEnum` and `TipoTarefaEnum` at construction time and raises
`ValidationError` when a value is not a member of its enum. -/
def mkStatusTarefaResponse (task_id status tipo : String)
    (timestamp_criacao : Int) (timestamp_inicio timestamp_fim : Option Int)
    (resultado : Option Dict) (erro : Option String) :
    Except String StatusTarefaResponse :=
  if statusTarefaEnumValido status && tipoTarefaEnumValido tipo then
    Except.ok
      { task_id := task_id, status := status, tipo := tipo,
        timestamp_criacao := timestamp_criacao,
        timestamp_inicio := timestamp_inicio,
        timestamp_fim := timestamp_fim, resultado := resultado,
        erro := erro }
  else Except.error "ValidationError"

/-- The `/tarefa/{task_id}` endpoint `status_tarefa` of
`src/app9/api/endpoints.py` (lines 349-420).  When the record is found, the
response is built from its stored fields outside the try block (an invalid
stored member would surface as an unhandled error, HTTP 500; the Enum
columns keep stored members valid).  When it is not found, the endpoint
consults the Celery result backend inside a `try: ... except:` block:
`asyncResult = none` embeds the case where that lookup itself raises;
otherwise the endpoint fabricates a response from the reported Celery state
with `tipo="desconhecido"` (and, for the STARTED and SUCCESS states, the
statuses EM_PROCESSAMENTO / CONCLUIDA).  None of these fabricated values
pass the response schema's enum validation, so the `ValidationError` is
caught by the same bare `except` and turned into HTTP 404.  `now` is the
wall clock used for the fabricated timestamps. -/
def status_tarefa (db : List TarefaAssincrona) (now : Int) (task_id : String)
    (asyncResult : Option AsyncResultView) : Except Nat StatusTarefaResponse :=
  match findT9 db task_id with
  | some t =>
      match mkStatusTarefaResponse t.task_id t.status t.tipo
          t.timestamp_criacao t.timestamp_inicio t.timestamp_fim
          t.resultado t.erro with
      | Except.ok r => Except.ok r
      | Except.error _ => Except.error 500
  | none =>
      match asyncResult with
      | none => Except.error 404
      | some ar =>
          match
            (if ar.state == "PENDING" then
              mkStatusTarefaResponse task_id "PENDENTE" "desconhecido" now
                none none none none
            else if ar.state == "STARTED" then
              mkStatusTarefaResponse task_id "EM_PROCESSAMENTO"
                "desconhecido" now (some now) none none none
            else if ar.state == "SUCCESS" then
              mkStatusTarefaResponse task_id "CONCLUIDA" "desconhecido" now
                (some now) (some now) ar.result none
            else
              mkStatusTarefaResponse task_id "FALHA" "desconhecido" now
                none none none (some ar.resultStr)) with
          | Except.ok r => Except.ok r
          | Except.error _ => Except.error 404

/-- The async branch of the `/treinar` endpoint of
`src/app9/api/endpoints.py` (lines 688-711): the task record is first
inserted and committed with the sentinel id `"pending"`; only then is the
Celery task enqueued (which assigns `celery_id`), and only after the enqueue
is the record's `task_id` updated to `celery_id` and committed again.  The
first component is the committed store as it stands between the enqueue and
the id update (the race window), the second the store after the submit
returns, the third the task id handed back to the caller. -/
def treinar9_async (db : List TarefaAssincrona) (now : Int)
    (celery_id algoritmo : String) (num_amostras : Nat) :
    List TarefaAssincrona × List TarefaAssincrona × String :=
  let tarefa : TarefaAssincrona :=
    { task_id := "pending", tipo := "TREINAMENTO", status := "PENDENTE",
      timestamp_criacao := now, timestamp_inicio := none,
      timestamp_fim := none,
      descricao := some ("Treinamento com algoritmo " ++ algoritmo),
      parametros := some
        [("algoritmo", algoritmo), ("num_amostras", toString num_amostras)],
      resultado := none, erro := none }
  (db ++ [tarefa], db ++ [{ tarefa with task_id := celery_id }], celery_id)

/-- The task-status record mutated by `atualizar_status_tarefa` of
`src/app9/worker.py`.  The module imports the model class `StatusTarefa` from
`database/models`; `src/app9/database/models.py` itself is not present under
src, so the record's fields follow the worker's own accesses (`task_id`,
`status`, `resultado`, `erro` — the latter two stored stringified). -/
structure RegistroTarefa9 where
  task_id : String
  status : String
  resultado : Option String
  erro : Option String
  deriving Repr, DecidableEq

/-- `atualizar_status_tarefa` of `src/app9/worker.py` (lines 61-81): fetch
the record by `task_id`; when it is missing only a warning is logged and the
store is left untouched (the function returns no value); otherwise the status
is assigned unconditionally and `resultado` / `erro` are assigned exactly
when the arguments are not `None` (`is not None` checks, unlike app10's
truthiness checks). -/
def atualizar_status_tarefa9 (db : List RegistroTarefa9)
    (task_id status : String) (resultado erro : Option String) :
    List RegistroTarefa9 :=
  match db.find? (fun t => t.task_id == task_id) with
  | none => db
  | some _ =>
      updateFirst (fun t => t.task_id == task_id)
        (fun t =>
          { t with
            status := status
            resultado :=
              match resultado with
              | some r => some r
              | none => t.resultado
            erro :=
              match erro with
              | some e => some e
              | none => t.erro }) db

/-- A sample completed app10 record, for concrete instantiations. -/
def tarefaConcluida : Tarefa :=
  { task_id := "t1", tipo := "predicao", status := "concluida",
    dados_entrada := none, resultado := some [("preco_previsto", "100")],
    erro := none, timestamp_inicio := some 0, timestamp_atualizacao := 3,
    duracao := some 3 }

/-- A sample failed app10 record, for concrete instantiations. -/
def tarefaFalha : Tarefa :=
  { task_id := "t2", tipo := "treinamento", status := "falha",
    dados_entrada := none, resultado := none, erro := some "sem dados",
    timestamp_inicio := some 0, timestamp_atualizacao := 4, duracao := some 4 }

/-- A sample freshly submitted app10 record, for concrete instantiations. -/
def tarefaPendente : Tarefa :=
  { task_id := "t3", tipo := "treinamento", status := "pendente",
    dados_entrada := none, resultado := none, erro := none,
    timestamp_inicio := some 0, timestamp_atualizacao := 0, duracao := none }

/-- A sample finished app09 record, for concrete instantiations. -/
def tarefa9Exemplo : TarefaAssincrona :=
  { task_id := "t9", tipo := "TREINAMENTO", status := "CONCLUIDO",
    timestamp_criacao := 0, timestamp_inicio := some 2,
    timestamp_fim := some 10, descricao := none, parametros := none,
    resultado := some [("mae", "1")], erro := none }

/-! Helper lemmas about record lookup and in-place update. -/

/-- Looking up after an in-place update of the first match: provided the
update preserves the search key, the lookup finds the updated record. -/
theorem find_updateFirst {α : Type} (p : α → Bool) (f : α → α)
    (hpf : ∀ a, p a = true → p (f a) = true) (l : List α) :
    (updateFirst p f l).find? p = (l.find? p).map f := by
  induction l with
  | nil => rfl
  | cons a l ih =>
      cases hpa : p a with
      | true =>
          simp only [updateFirst, hpa, if_true]
          rw [List.find?_cons_of_pos _ (hpf a hpa), List.find?_cons_of_pos _ hpa]
          rfl
      | false =>
          simp only [updateFirst, hpa, Bool.false_eq_true, if_false]
          rw [List.find?_cons_of_neg _ (by simp [hpa]),
            List.find?_cons_of_neg _ (by simp [hpa])]
          exact ih

/-- `aplicarAtualizacao` never touches the record's `task_id`. -/
theorem aplicarAtualizacao_task_id (t : Tarefa) (now : Int) (status : String)
    (resultado : Option Dict) (erro : Option String) :
    (aplicarAtualizacao t now status resultado erro).task_id = t.task_id := rfl

/-- When the record is present, `atualizar_status_tarefa` returns `true` and
the store afterwards holds, under the same id, exactly the image of the old
record under the field updates of `aplicarAtualizacao`. -/
theorem atualizar_found (db : List Tarefa) (t : Tarefa) (now : Int)
    (id status : String) (resultado : Option Dict) (erro : Option String)
    (h : findTarefa db id = some t) :
    (atualizar_status_tarefa db now id status resultado erro).1 = true ∧
      findTarefa (atualizar_status_tarefa db now id status resultado erro).2 id =
        some (aplicarAtualizacao t now status resultado erro) := by
  have hpf : ∀ a : Tarefa, (a.task_id == id) = true →
      ((aplicarAtualizacao a now status resultado erro).task_id == id) = true := by
    intro a ha
    rw [aplicarAtualizacao_task_id]
    exact ha
  have h' : List.find? (fun t => t.task_id == id) db = some t := h
  constructor
  · simp only [atualizar_status_tarefa, h]
  · simp only [atualizar_status_tarefa, findTarefa, h']
    rw [find_updateFirst _ _ hpf, h']
    rfl

/-- Appending three entries to a dictionary always yields a truthy
(non-empty) dictionary. -/
theorem dictTruthy_append (m : Dict) (a b c : String × String) :
    dictTruthy (some (m ++ [a, b, c])) = true := by
  cases m <;> rfl

/-- A non-empty string is truthy. -/
theorem strTruthy_of_ne (e : String) (he : e ≠ "") :
    strTruthy (some e) = true := by
  have hbe : (e == "") = false := by
    cases hb : (e == "") with
    | true => exact absurd (eq_of_beq hb) he
    | false => rfl
  simp [strTruthy, hbe]

/-- Looking up in a store extended with one matching record finds that
record when the original store has no match. -/
theorem find_append_singleton {α : Type} (p : α → Bool) (l : List α) (a : α)
    (h : l.find? p = none) (ha : p a = true) :
    (l ++ [a]).find? p = some a := by
  rw [List.find?_append, h, Option.none_or, List.find?_cons_of_pos _ ha]

/-- Looking up in a store extended with one non-matching record still finds
nothing when the original store has no match. -/
theorem find_append_singleton_none {α : Type} (p : α → Bool) (l : List α)
    (a : α) (h : l.find? p = none) (ha : p a = false) :
    (l ++ [a]).find? p = none := by
  rw [List.find?_append, h, Option.none_or,
    List.find?_cons_of_neg _ (by simp [ha])]
  rfl

/-! Claim theorems. -/

/-- Counterexample to claim C1 as stated: a record whose status is
"concluida" — not PENDING — is not left unchanged by the worker's claim
step; its status is overwritten to "em_progresso". -/
theorem c1_counterexample :
    tarefaConcluida.status = "concluida" ∧
      (findTarefa
          (atualizar_status_tarefa [tarefaConcluida] 9 "t1" "em_progresso"
            none none).2 "t1").map Tarefa.status = some "em_progresso" :=
  ⟨rfl, rfl⟩

/-- Claim C1 (amended): when a worker processes a dequeued message, the
transition to IN_PROGRESS is applied unconditionally — whatever the record's
current status, `atualizar_status_tarefa` reports success and overwrites the
status to "em_progresso" (leaving `resultado`, `erro`, `timestamp_inicio`
and `duracao` as they were; `started_at` is not written at claim time, having
been set at submission) — and the worker proceeds to invoke the executor
rather than abandoning the message; only a missing record is left
untouched. -/
theorem c1_claim_sem_guarda (db : List Tarefa) (t : Tarefa) (now : Int)
    (id : String) (metricas : Dict) (alg tmp ts : String)
    (hfind : findTarefa db id = some t) :
    (atualizar_status_tarefa db now id "em_progresso" none none).1 = true ∧
      (∃ r, findTarefa
            (atualizar_status_tarefa db now id "em_progresso" none none).2 id =
          some r ∧
        r.status = "em_progresso" ∧ r.resultado = t.resultado ∧
        r.erro = t.erro ∧ r.timestamp_inicio = t.timestamp_inicio ∧
        r.duracao = t.duracao) ∧
      (treinar_modelo db now now id (Except.ok metricas) alg tmp ts).2 =
        Except.ok (metricas ++
          [("algoritmo", alg), ("tempo_treinamento", tmp),
           ("timestamp", ts)]) := by
  obtain ⟨h1, h2⟩ := atualizar_found db t now id "em_progresso" none none hfind
  refine ⟨h1,
    ⟨aplicarAtualizacao t now "em_progresso" none none, h2, rfl, ?_, ?_, rfl, ?_⟩,
    ?_⟩
  · simp [aplicarAtualizacao, dictTruthy]
  · simp [aplicarAtualizacao, strTruthy]
  · simp [aplicarAtualizacao]
  · simp [treinar_modelo]

/-- Witness for claim C1 at a concrete store holding one completed
record. -/
theorem c1_witness :
    findTarefa [tarefaConcluida] "t1" = some tarefaConcluida ∧
      ((atualizar_status_tarefa [tarefaConcluida] 9 "t1" "em_progresso"
            none none).1 = true ∧
        (∃ r, findTarefa
              (atualizar_status_tarefa [tarefaConcluida] 9 "t1" "em_progresso"
                none none).2 "t1" = some r ∧
          r.status = "em_progresso" ∧ r.resultado = tarefaConcluida.resultado ∧
          r.erro = tarefaConcluida.erro ∧
          r.timestamp_inicio = tarefaConcluida.timestamp_inicio ∧
          r.duracao = tarefaConcluida.duracao) ∧
        (treinar_modelo [tarefaConcluida] 9 9 "t1" (Except.ok [("mae", "1")])
            "lr" "0" "ts").2 =
          Except.ok [("mae", "1"), ("algoritmo", "lr"),
            ("tempo_treinamento", "0"), ("timestamp", "ts")]) :=
  ⟨rfl, c1_claim_sem_guarda [tarefaConcluida] tarefaConcluida 9 "t1"
    [("mae", "1")] "lr" "0" "ts" rfl⟩

/-- Counterexample to claim C2 as stated: a record in the terminal state
"falha" is not protected — re-running the worker's completion logic
overwrites it to "concluida". -/
theorem c2_counterexample :
    tarefaFalha.status = "falha" ∧
      (findTarefa
          (atualizar_status_tarefa [tarefaFalha] 9 "t2" "concluida"
            (some [("preco_previsto", "100")]) none).2 "t2").map
        Tarefa.status = some "concluida" :=
  ⟨rfl, rfl⟩

/-- Claim C2 (amended): terminal states are not protected: for a task record
in a terminal status, applying any further transition through
`atualizar_status_tarefa` reports success and overwrites the status with the
new value, refreshing `timestamp_atualizacao` — so a redelivered completion
write or a completion racing a cancellation rewrites the record instead of
being a no-op (whenever the new status differs, the stored record changes). -/
theorem c2_terminal_sobrescrita (db : List Tarefa) (t : Tarefa) (now : Int)
    (id s : String) (res : Option Dict) (err : Option String)
    (hfind : findTarefa db id = some t)
    (hterm : t.status = "concluida" ∨ t.status = "falha") :
    (atualizar_status_tarefa db now id s res err).1 = true ∧
      ∃ r, findTarefa (atualizar_status_tarefa db now id s res err).2 id =
          some r ∧
        r.status = s ∧ r.timestamp_atualizacao = now ∧
        (s ≠ t.status → r ≠ t) := by
  obtain ⟨h1, h2⟩ := atualizar_found db t now id s res err hfind
  refine ⟨h1, aplicarAtualizacao t now s res err, h2, rfl, rfl, ?_⟩
  intro hs hrt
  exact hs (by rw [← hrt]; rfl)

/-- Witness for claim C2 at a concrete store holding one completed record,
overwritten to "falha". -/
theorem c2_witness :
    (findTarefa [tarefaConcluida] "t1" = some tarefaConcluida ∧
      (tarefaConcluida.status = "concluida" ∨
        tarefaConcluida.status = "falha")) ∧
      ((atualizar_status_tarefa [tarefaConcluida] 9 "t1" "falha" none
            (some "x")).1 = true ∧
        ∃ r, findTarefa (atualizar_status_tarefa [tarefaConcluida] 9 "t1"
              "falha" none (some "x")).2 "t1" = some r ∧
          r.status = "falha" ∧ r.timestamp_atualizacao = 9 ∧
          ("falha" ≠ tarefaConcluida.status → r ≠ tarefaConcluida)) :=
  ⟨⟨rfl, Or.inl rfl⟩,
    c2_terminal_sobrescrita [tarefaConcluida] tarefaConcluida 9 "t1" "falha"
      none (some "x") rfl (Or.inl rfl)⟩

/-- Counterexample to claim C3 as stated: after a failed run of
`treinar_modelo` is redelivered and succeeds, the record is terminal
("concluida") with BOTH `resultado` and the stale `erro` non-null — result
and error are not mutually exclusive, and `erro` was non-null while the
status was the non-terminal "em_progresso" during the second run. -/
theorem c3_counterexample :
    (findTarefa
        (treinar_modelo
          (treinar_modelo [tarefaPendente] 1 2 "t3" (Except.error "boom")
            "lr" "0" "ts").1
          3 4 "t3" (Except.ok [("mae", "1")]) "lr" "0" "ts").1 "t3").map
      (fun r => (r.status, r.resultado.isSome, r.erro)) =
      some ("concluida", true, some "boom") := rfl

/-- Claim C3 (amended): mutual exclusivity holds only along a single
delivery starting from a freshly submitted record (result and error both
null): the IN_PROGRESS write keeps both null, a successful run stores a
non-null result and no error, and a failed run with non-empty stringified
cause stores the error and no result.  Under redelivery a stale field
persists — the updater never clears `resultado`/`erro` — so the invariant as
stated fails; app10 moreover has no `finished_at` column (the terminal write
sets `duracao` and `timestamp_atualizacao` instead). -/
theorem c3_exclusividade_sem_reentrega (db : List Tarefa) (t : Tarefa)
    (t1 t2 : Int) (id : String) (metricas : Dict) (e alg tmp ts : String)
    (hfind : findTarefa db id = some t) (hres : t.resultado = none)
    (herr : t.erro = none) (he : e ≠ "") :
    (∃ r, findTarefa
          (atualizar_status_tarefa db t1 id "em_progresso" none none).2 id =
        some r ∧ r.resultado = none ∧ r.erro = none) ∧
      (∃ r, findTarefa
            (treinar_modelo db t1 t2 id (Except.ok metricas) alg tmp ts).1 id =
          some r ∧
        r.status = "concluida" ∧ r.resultado.isSome = true ∧
        r.erro = none) ∧
      (∃ r, findTarefa
            (treinar_modelo db t1 t2 id (Except.error e) alg tmp ts).1 id =
          some r ∧
        r.status = "falha" ∧ r.erro = some e ∧ r.resultado = none) := by
  obtain ⟨-, h2⟩ := atualizar_found db t t1 id "em_progresso" none none hfind
  have hr1res :
      (aplicarAtualizacao t t1 "em_progresso" none none).resultado = none := by
    simp [aplicarAtualizacao, dictTruthy, hres]
  have hr1err :
      (aplicarAtualizacao t t1 "em_progresso" none none).erro = none := by
    simp [aplicarAtualizacao, strTruthy, herr]
  refine ⟨⟨_, h2, hr1res, hr1err⟩, ?_, ?_⟩
  · obtain ⟨-, h3⟩ := atualizar_found _ _ t2 id "concluida"
      (some (metricas ++
        [("algoritmo", alg), ("tempo_treinamento", tmp), ("timestamp", ts)]))
      none h2
    refine ⟨aplicarAtualizacao (aplicarAtualizacao t t1 "em_progresso" none none)
      t2 "concluida"
      (some (metricas ++
        [("algoritmo", alg), ("tempo_treinamento", tmp), ("timestamp", ts)]))
      none, ?_, rfl, ?_, ?_⟩
    · simpa only [treinar_modelo] using h3
    · simp [aplicarAtualizacao, dictTruthy_append]
    · simp [aplicarAtualizacao, strTruthy, herr]
  · obtain ⟨-, h3⟩ := atualizar_found _ _ t2 id "falha" none (some e) h2
    refine ⟨aplicarAtualizacao (aplicarAtualizacao t t1 "em_progresso" none none)
      t2 "falha" none (some e), ?_, rfl, ?_, ?_⟩
    · simpa only [treinar_modelo] using h3
    · simp [aplicarAtualizacao, strTruthy_of_ne e he]
    · simp [aplicarAtualizacao, dictTruthy, hres]

/-- Witness for claim C3 at a concrete fresh record, with a successful and a
failed single run. -/
theorem c3_witness :
    (findTarefa [tarefaPendente] "t3" = some tarefaPendente ∧
      tarefaPendente.resultado = none ∧ tarefaPendente.erro = none ∧
      "boom" ≠ "") ∧
      ((∃ r, findTarefa
            (atualizar_status_tarefa [tarefaPendente] 1 "t3" "em_progresso"
              none none).2 "t3" =
          some r ∧ r.resultado = none ∧ r.erro = none) ∧
        (∃ r, findTarefa
              (treinar_modelo [tarefaPendente] 1 2 "t3"
                (Except.ok [("mae", "1")]) "lr" "0" "ts").1 "t3" =
            some r ∧
          r.status = "concluida" ∧ r.resultado.isSome = true ∧
          r.erro = none) ∧
        (∃ r, findTarefa
              (treinar_modelo [tarefaPendente] 1 2 "t3" (Except.error "boom")
                "lr" "0" "ts").1 "t3" =
            some r ∧
          r.status = "falha" ∧ r.erro = some "boom" ∧ r.resultado = none)) :=
  ⟨⟨rfl, rfl, rfl, by decide⟩,
    c3_exclusividade_sem_reentrega [tarefaPendente] tarefaPendente 1 2 "t3"
      [("mae", "1")] "boom" "lr" "0" "ts" rfl rfl rfl (by decide)⟩

/-- Counterexample to claim C4 as stated: immediately after an asynchronous
submit through `/prever`, `get_status` reports status "pendente" but
`started_at` (`timestamp_inicio`) is already non-null — the app10 schema
sets it at row creation, not when a worker starts. -/
theorem c4_counterexample :
    ((verificar_status_tarefa (prever_async [] 100 "t4" [("area", "80")]).1
          "t4").2).map (fun r => (r.status, r.timestamp_inicio)) =
      Except.ok ("pendente", some 100) ∧
      some (100 : Int) ≠ (none : Option Int) :=
  ⟨rfl, by decide⟩

/-- Claim C4 (amended): for every fresh task id, `get_status` immediately
after the asynchronous submit returns status "pendente" with `resultado` and
`erro` null, but with `timestamp_inicio` already set to the submission time
(the schema has no separate `created_at`/`finished_at`; `timestamp_inicio`
is never null, so "started_at is null iff PENDING" does not hold in
app10). -/
theorem c4_pendente_apos_submit (db : List Tarefa) (now : Int) (id : String)
    (dados : Dict) (hfresh : findTarefa db id = none) :
    verificar_status_tarefa (prever_async db now id dados).1 id =
      ((prever_async db now id dados).1,
        Except.ok
          { task_id := id, status := "pendente", resultado := none,
            erro := none, timestamp_inicio := some now,
            timestamp_atualizacao := now }) := by
  have hfind : findTarefa (prever_async db now id dados).1 id =
      some { task_id := id, tipo := "predicao", status := "pendente",
             dados_entrada := some dados, resultado := none, erro := none,
             timestamp_inicio := some now, timestamp_atualizacao := now,
             duracao := none } := by
    have := find_append_singleton (fun t : Tarefa => t.task_id == id) db
      { task_id := id, tipo := "predicao", status := "pendente",
        dados_entrada := some dados, resultado := none, erro := none,
        timestamp_inicio := some now, timestamp_atualizacao := now,
        duracao := none } hfresh (by simp)
    simpa only [prever_async, findTarefa] using this
  simp only [verificar_status_tarefa, hfind]

/-- Witness for claim C4 at the empty store. -/
theorem c4_witness :
    findTarefa [] "t4" = none ∧
      verificar_status_tarefa (prever_async [] 100 "t4" [("area", "80")]).1
          "t4" =
        ((prever_async [] 100 "t4" [("area", "80")]).1,
          Except.ok
            { task_id := "t4", status := "pendente", resultado := none,
              erro := none, timestamp_inicio := some 100,
              timestamp_atualizacao := 100 }) :=
  ⟨rfl, c4_pendente_apos_submit [] 100 "t4" [("area", "80")] rfl⟩

/-- Claim C5: for every task id with no record in the Task Record Store,
`get_status` returns a distinct not-found signal — HTTP 404, never a task
status value and never FAILED — and has no side effect on the store.  app10
raises 404 directly; app9's Celery fallback fabricates responses that all
fail the response schema's enum validation (`tipo="desconhecido"`), so its
bare `except` turns every unknown id into 404 as well, whatever the Celery
backend answers. -/
theorem c5_nao_encontrada (db : List Tarefa) (db9 : List TarefaAssincrona)
    (now : Int) (id : String) (asyncResult : Option AsyncResultView)
    (h10 : findTarefa db id = none) (h9 : findT9 db9 id = none) :
    verificar_status_tarefa db id = (db, Except.error 404) ∧
      status_tarefa db9 now id asyncResult = Except.error 404 := by
  constructor
  · simp only [verificar_status_tarefa, h10]
  · simp only [status_tarefa, h9]
    cases asyncResult with
    | none => rfl
    | some ar =>
        cases h1 : ar.state == "PENDING" <;>
          cases h2 : ar.state == "STARTED" <;>
            cases h3 : ar.state == "SUCCESS" <;>
              simp [h1, h2, h3, mkStatusTarefaResponse,
                statusTarefaEnumValido, tipoTarefaEnumValido]

/-- Witness for claim C5 at empty stores, with the Celery backend answering
PENDING (what it reports for ids it has never seen). -/
theorem c5_witness :
    (findTarefa [] "x9" = none ∧ findT9 [] "x9" = none) ∧
      (verificar_status_tarefa [] "x9" = ([], Except.error 404) ∧
        status_tarefa [] 7 "x9"
            (some { state := "PENDING", result := none,
                    resultStr := "None" }) =
          Except.error 404) :=
  ⟨⟨rfl, rfl⟩,
    c5_nao_encontrada [] [] 7 "x9"
      (some { state := "PENDING", result := none, resultStr := "None" })
      rfl rfl⟩

/-- Counterexample to claim C6 as stated: when the executor raises an
exception whose stringified cause is the empty string, the worker marks the
record "falha" but the error field stays null — the cause is not preserved
(the updater only assigns truthy values), and app10 has no `finished_at`
column to set. -/
theorem c6_counterexample :
    (findTarefa
        (treinar_modelo [tarefaPendente] 1 2 "t3" (Except.error "") "lr" "0"
          "ts").1 "t3").map (fun r => (r.status, r.erro)) =
      some ("falha", none) := rfl

/-- Claim C6 (amended): for every executor error with a non-empty
stringified cause, both worker tasks transition the record to "falha" with
`erro` set to the cause verbatim (an empty cause leaves `erro` null); app10
has no `finished_at` — the terminal write refreshes `duracao` and
`timestamp_atualizacao` instead; and the exception is then re-raised to the
Celery framework (which records the task failure) rather than crashing the
worker process. -/
theorem c6_falha_registrada (db : List Tarefa) (t : Tarefa) (t1 t2 : Int)
    (id e alg tmp ts modelo_usado : String)
    (hfind : findTarefa db id = some t) (he : e ≠ "") :
    (∃ r, findTarefa
          (treinar_modelo db t1 t2 id (Except.error e) alg tmp ts).1 id =
        some r ∧ r.status = "falha" ∧ r.erro = some e) ∧
      (treinar_modelo db t1 t2 id (Except.error e) alg tmp ts).2 =
        Except.error e ∧
      (∃ r, findTarefa
            (realizar_previsao db t1 t2 id (Except.error e) modelo_usado tmp
              ts).1 id =
          some r ∧ r.status = "falha" ∧ r.erro = some e) ∧
      (realizar_previsao db t1 t2 id (Except.error e) modelo_usado tmp
          ts).2 = Except.error e := by
  obtain ⟨-, h2⟩ := atualizar_found db t t1 id "em_progresso" none none hfind
  obtain ⟨-, h3⟩ := atualizar_found _ _ t2 id "falha" none (some e) h2
  refine ⟨⟨aplicarAtualizacao (aplicarAtualizacao t t1 "em_progresso" none none)
      t2 "falha" none (some e), ?_, rfl, ?_⟩, ?_,
    ⟨aplicarAtualizacao (aplicarAtualizacao t t1 "em_progresso" none none)
      t2 "falha" none (some e), ?_, rfl, ?_⟩, ?_⟩
  · simpa only [treinar_modelo] using h3
  · simp [aplicarAtualizacao, strTruthy_of_ne e he]
  · simp [treinar_modelo]
  · simpa only [realizar_previsao] using h3
  · simp [aplicarAtualizacao, strTruthy_of_ne e he]
  · simp [realizar_previsao]

/-- Witness for claim C6 at a concrete fresh record and the executor error
"modelo nao treinado". -/
theorem c6_witness :
    (findTarefa [tarefaPendente] "t3" = some tarefaPendente ∧
      "modelo nao treinado" ≠ "") ∧
      ((∃ r, findTarefa
            (treinar_modelo [tarefaPendente] 1 2 "t3"
              (Except.error "modelo nao treinado") "lr" "0" "ts").1 "t3" =
          some r ∧ r.status = "falha" ∧ r.erro = some "modelo nao treinado") ∧
        (treinar_modelo [tarefaPendente] 1 2 "t3"
            (Except.error "modelo nao treinado") "lr" "0" "ts").2 =
          Except.error "modelo nao treinado" ∧
        (∃ r, findTarefa
              (realizar_previsao [tarefaPendente] 1 2 "t3"
                (Except.error "modelo nao treinado") "rf" "0" "ts").1 "t3" =
            some r ∧
          r.status = "falha" ∧ r.erro = some "modelo nao treinado") ∧
        (realizar_previsao [tarefaPendente] 1 2 "t3"
            (Except.error "modelo nao treinado") "rf" "0" "ts").2 =
          Except.error "modelo nao treinado") :=
  ⟨⟨rfl, by decide⟩,
    c6_falha_registrada [tarefaPendente] tarefaPendente 1 2 "t3"
      "modelo nao treinado" "lr" "0" "ts" "rf" rfl (by decide)⟩

/-- Counterexample to claim C7 as stated: in app9's `/treinar`, the task id
handed back to the caller is the Celery-assigned id, yet the store as it
stands at enqueue time (before the post-enqueue id fix-up) has no record
under that id — the record was inserted with the sentinel id "pending", so
the final id is neither generated before the enqueue nor written first. -/
theorem c7_counterexample :
    (treinar9_async [] 0 "abc-123" "linear" 12).2.2 = "abc-123" ∧
      findT9 (treinar9_async [] 0 "abc-123" "linear" 12).1 "abc-123" =
        none :=
  ⟨rfl, rfl⟩

/-- Claim C7 (amended): app10's submit generates the uuid before enqueueing,
writes the PENDING record under that final id and enqueues a message
carrying the same id, so a status query after submit finds the record;
app9's `/treinar`, by contrast, inserts the record with the sentinel id
"pending", enqueues, and only then rewrites the record's id to the
Celery-assigned one — during that window a status query by the returned id
misses the record, although after submit returns it is found. -/
theorem c7_id_antes_do_enqueue (db : List Tarefa)
    (db9 : List TarefaAssincrona) (now now9 : Int)
    (id celery_id alg : String) (dados : Dict) (n : Nat)
    (hfresh : findTarefa db id = none)
    (hcel : celery_id ≠ "pending") (hfresh9 : findT9 db9 celery_id = none) :
    (∃ r, findTarefa (prever_async db now id dados).1 id = some r ∧
        r.task_id = id ∧ r.status = "pendente") ∧
      (prever_async db now id dados).2.1.1 = id ∧
      (treinar9_async db9 now9 celery_id alg n).2.2 = celery_id ∧
      findT9 (treinar9_async db9 now9 celery_id alg n).1 celery_id = none ∧
      (∃ r, findT9 (treinar9_async db9 now9 celery_id alg n).2.1 celery_id =
          some r ∧ r.task_id = celery_id ∧ r.status = "PENDENTE") := by
  have hbc : (("pending" : String) == celery_id) = false := by
    cases hb : (("pending" : String) == celery_id) with
    | true => exact absurd (eq_of_beq hb).symm hcel
    | false => rfl
  refine ⟨?_, rfl, rfl, ?_, ?_⟩
  · have := find_append_singleton (fun t : Tarefa => t.task_id == id) db
      { task_id := id, tipo := "predicao", status := "pendente",
        dados_entrada := some dados, resultado := none, erro := none,
        timestamp_inicio := some now, timestamp_atualizacao := now,
        duracao := none } hfresh (by simp)
    exact ⟨_, by simpa only [prever_async, findTarefa] using this, rfl, rfl⟩
  · have := find_append_singleton_none
      (fun t : TarefaAssincrona => t.task_id == celery_id) db9
      { task_id := "pending", tipo := "TREINAMENTO", status := "PENDENTE",
        timestamp_criacao := now9, timestamp_inicio := none,
        timestamp_fim := none,
        descricao := some ("Treinamento com algoritmo " ++ alg),
        parametros := some
          [("algoritmo", alg), ("num_amostras", toString n)],
        resultado := none, erro := none } hfresh9 hbc
    simpa only [treinar9_async, findT9] using this
  · have := find_append_singleton
      (fun t : TarefaAssincrona => t.task_id == celery_id) db9
      { task_id := celery_id, tipo := "TREINAMENTO", status := "PENDENTE",
        timestamp_criacao := now9, timestamp_inicio := none,
        timestamp_fim := none,
        descricao := some ("Treinamento com algoritmo " ++ alg),
        parametros := some
          [("algoritmo", alg), ("num_amostras", toString n)],
        resultado := none, erro := none } hfresh9 (by simp)
    exact ⟨_, by simpa only [treinar9_async, findT9] using this, rfl, rfl⟩

/-- Witness for claim C7 at empty stores. -/
theorem c7_witness :
    (findTarefa [] "u1" = none ∧ "abc-123" ≠ "pending" ∧
      findT9 [] "abc-123" = none) ∧
      ((∃ r, findTarefa (prever_async [] 5 "u1" [("area", "80")]).1 "u1" =
            some r ∧ r.task_id = "u1" ∧ r.status = "pendente") ∧
        (prever_async [] 5 "u1" [("area", "80")]).2.1.1 = "u1" ∧
        (treinar9_async [] 0 "abc-123" "linear" 12).2.2 = "abc-123" ∧
        findT9 (treinar9_async [] 0 "abc-123" "linear" 12).1 "abc-123" =
          none ∧
        (∃ r, findT9 (treinar9_async [] 0 "abc-123" "linear" 12).2.1
              "abc-123" =
            some r ∧ r.task_id = "abc-123" ∧ r.status = "PENDENTE")) :=
  ⟨⟨rfl, by decide, rfl⟩,
    c7_id_antes_do_enqueue [] [] 5 0 "u1" "abc-123" "linear" [("area", "80")]
      12 rfl (by decide) rfl⟩

/-- Claim C8: the derived duration equals `finished_at - started_at` when
both timestamps are set and is null otherwise (`TarefaAssincrona.duracao`);
correspondingly, app10's terminal status write stores
`duracao = now - timestamp_inicio`, the time from start to the terminal
transition. -/
theorem c8_duracao (t9 : TarefaAssincrona) (i f : Int) (db : List Tarefa)
    (t : Tarefa) (now i0 : Int) (id s : String) (res : Option Dict)
    (err : Option String)
    (h1 : t9.timestamp_inicio = some i) (h2 : t9.timestamp_fim = some f)
    (hfind : findTarefa db id = some t)
    (hterm : s = "concluida" ∨ s = "falha")
    (hinicio : t.timestamp_inicio = some i0) :
    t9.duracao = some (f - i) ∧
      (∀ u : TarefaAssincrona,
        u.timestamp_inicio = none ∨ u.timestamp_fim = none →
          u.duracao = none) ∧
      (∃ r, findTarefa (atualizar_status_tarefa db now id s res err).2 id =
          some r ∧ r.duracao = some (now - i0)) := by
  refine ⟨?_, ?_, ?_⟩
  · simp [TarefaAssincrona.duracao, h1, h2]
  · intro u hu
    rcases hu with hu | hu
    · simp [TarefaAssincrona.duracao, hu]
    · cases hi : u.timestamp_inicio <;>
        simp [TarefaAssincrona.duracao, hi, hu]
  · obtain ⟨-, h3⟩ := atualizar_found db t now id s res err hfind
    refine ⟨aplicarAtualizacao t now s res err, h3, ?_⟩
    rcases hterm with h | h <;> subst h <;>
      simp [aplicarAtualizacao, hinicio]

/-- Witness for claim C8 at a concrete finished app09 record and a concrete
app10 terminal write. -/
theorem c8_witness :
    (tarefa9Exemplo.timestamp_inicio = some 2 ∧
      tarefa9Exemplo.timestamp_fim = some 10 ∧
      findTarefa [tarefaPendente] "t3" = some tarefaPendente ∧
      ("concluida" = "concluida" ∨ ("concluida" : String) = "falha") ∧
      tarefaPendente.timestamp_inicio = some 0) ∧
      (tarefa9Exemplo.duracao = some (10 - 2) ∧
        (∀ u : TarefaAssincrona,
          u.timestamp_inicio = none ∨ u.timestamp_fim = none →
            u.duracao = none) ∧
        (∃ r, findTarefa
              (atualizar_status_tarefa [tarefaPendente] 9 "t3" "concluida"
                (some [("mae", "1")]) none).2 "t3" =
            some r ∧ r.duracao = some (9 - 0))) :=
  ⟨⟨rfl, rfl, rfl, Or.inl rfl, rfl⟩,
    c8_duracao tarefa9Exemplo 2 10 [tarefaPendente] tarefaPendente 9 0 "t3"
      "concluida" (some [("mae", "1")]) none rfl rfl rfl (Or.inl rfl) rfl⟩

/-- Claim C9: for every store, wall clock and `dias` argument, the periodic
cleanup task `limpar_tarefas_antigas` raises before deleting anything — its
cutoff computation accesses `datetime.timedelta` on the imported `datetime`
class, which has no such attribute — so the transaction is rolled back and
the task always leaves the Task Record Store unchanged. -/
theorem c9_limpar_nunca_remove (db : List Tarefa) (now dias : Int) :
    (limpar_tarefas_antigas db now dias).1 = db ∧
      (limpar_tarefas_antigas db now dias).2 =
        Except.error
          "AttributeError: type object datetime.datetime has no attribute timedelta" :=
  ⟨rfl, rfl⟩

/-- Claim C10: calling the worker's status updater `atualizar_status_tarefa`
with a task id matching no existing record creates no record and leaves the
Task Record Store unchanged, whatever the status, result and error arguments;
app10's updater moreover returns `False`.  (The app9 variant logs a warning
and likewise leaves its store untouched.) -/
theorem c10_atualizar_desconhecida (db : List Tarefa)
    (db9 : List RegistroTarefa9) (now : Int) (id status : String)
    (resultado : Option Dict) (erro : Option String)
    (resultado9 erro9 : Option String)
    (h10 : findTarefa db id = none)
    (h9 : db9.find? (fun t => t.task_id == id) = none) :
    atualizar_status_tarefa db now id status resultado erro = (false, db) ∧
      atualizar_status_tarefa9 db9 id status resultado9 erro9 = db9 := by
  constructor
  · simp only [atualizar_status_tarefa, h10]
  · simp only [atualizar_status_tarefa9, h9]

/-- Witness for claim C10 at a concrete store with no matching record. -/
theorem c10_witness :
    (findTarefa
        [{ task_id := "a1", tipo := "predicao", status := "pendente",
           dados_entrada := none, resultado := none, erro := none,
           timestamp_inicio := some 0, timestamp_atualizacao := 0,
           duracao := none }] "zz" = none ∧
      ([] : List RegistroTarefa9).find? (fun t => t.task_id == "zz") = none) ∧
      (atualizar_status_tarefa
          [{ task_id := "a1", tipo := "predicao", status := "pendente",
             dados_entrada := none, resultado := none, erro := none,
             timestamp_inicio := some 0, timestamp_atualizacao := 0,
             duracao := none }] 7 "zz" "falha" none (some "boom") =
        (false,
          [{ task_id := "a1", tipo := "predicao", status := "pendente",
             dados_entrada := none, resultado := none, erro := none,
             timestamp_inicio := some 0, timestamp_atualizacao := 0,
             duracao := none }]) ∧
        atualizar_status_tarefa9 [] "zz" "FALHA" none (some "boom") = []) :=
  ⟨⟨rfl, rfl⟩,
    c10_atualizar_desconhecida
      [{ task_id := "a1", tipo := "predicao", status := "pendente",
         dados_entrada := none, resultado := none, erro := none,
         timestamp_inicio := some 0, timestamp_atualizacao := 0,
         duracao := none }] [] 7 "zz" "falha" none (some "boom") none
      (some "boom") rfl rfl⟩

end MLTask
